import Mathlib

/-!
Verification of `tensorboard/plugins/audio/summary.py` (audio summary
builders) against its specification.

The module exposes two builders:
* `pb` — immediate mode: takes a concrete numpy array, validates its rank,
  resolves the encoding, slices the batch, encodes each retained clip and
  assembles a summary protobuf synchronously;
* `op` — deferred mode: resolves display name and encoding at graph
  construction time and registers a computation that performs the rank
  assertion, slicing, encoding and row assembly when later evaluated.

The embedding below translates those functions into Lean.  Numpy arrays
obtained from nested Python lists are modelled as finitely branching trees
(`Tensor`); `ndim` and `shape` mirror numpy's rank and shape on such input.
The audio encoder (`util.encode_wav` in immediate mode,
`tf.contrib.ffmpeg.encode_audio` in deferred mode) is an external
collaborator whose output is treated as opaque, so both builders are
parametrised by an abstract `encoder : Int → Tensor α → β` (sample rate,
then waveform).  Besides the `Except` result, each builder returns the list
of waveforms passed to the encoder, in call order, embedding the
`[encoder(a) for a in limited_audio]` comprehension (respectively the
`tf.map_fn` node) observably; on every error path that list is empty,
because the Python raises before reaching the encoding statement.
-/

namespace AudioSummary

/-- A numpy array built from a nested Python list: either a scalar leaf or a
list of sub-arrays. -/
inductive Tensor (α : Type) where
  | scalar : α → Tensor α
  | arr : List (Tensor α) → Tensor α

/-- `np.array(x).ndim` for a (homogeneous) nested list `x`: nesting depth,
read along the first element. -/
def Tensor.ndim {α : Type} : Tensor α → Nat
  | .scalar _ => 0
  | .arr [] => 1
  | .arr (t :: _) => t.ndim + 1

/-- `np.array(x).shape` for a (homogeneous) nested list `x`. -/
def Tensor.shape {α : Type} : Tensor α → List Nat
  | .scalar _ => []
  | .arr [] => [0]
  | .arr (t :: ts) => (ts.length + 1) :: t.shape

/-- The sub-arrays along the first axis: iterating / slicing a numpy array
yields its first-axis sub-arrays. -/
def Tensor.subArrays {α : Type} : Tensor α → List (Tensor α)
  | .scalar _ => []
  | .arr ts => ts

mutual
/-- All scalar leaves, in row-major order (used only to build concrete
injective encoders in examples). -/
def Tensor.flatten {α : Type} : Tensor α → List α
  | .scalar a => [a]
  | .arr ts => Tensor.flattenMany ts
/-- `flatten` mapped over a list of tensors and concatenated. -/
def Tensor.flattenMany {α : Type} : List (Tensor α) → List α
  | [] => []
  | t :: ts => t.flatten ++ Tensor.flattenMany ts
end

/-- Python slice `l[:n]`: for `n ≥ 0` the first `n` elements, for `n < 0`
all but the last `|n|` elements. -/
def pySlice {α : Type} (n : Int) (l : List α) : List α :=
  if 0 ≤ n then l.take n.toNat else l.take (l.length - (-n).toNat)

/-- The two `ValueError`s raised by `summary.py`:
`'Shape %r must have rank 3'` (carrying the actual shape) and
`'Unknown encoding: %r'` (carrying the requested encoding). -/
inductive BuildError where
  | shapeError : List Nat → BuildError
  | unknownEncoding : String → BuildError
deriving DecidableEq

/-- Modelled from the spec: the metadata schema's `EncodingKind`
enumeration (`tensorboard/plugins/audio/metadata.py` is not under `src/`);
"only `WAV` is currently supported". -/
inductive Encoding where
  | WAV
deriving DecidableEq

/-- Modelled from the spec: the `SummaryMetadata` record
"{display_name: string, description: string (Markdown), encoding:
EncodingKind}" built by the metadata schema collaborator. -/
structure SummaryMetadata where
  display_name : String
  descriptionField : String
  encoding : Encoding
deriving DecidableEq

/-- Modelled from the spec: `metadata.create_summary_metadata`
(`tensorboard/plugins/audio/metadata.py` is not under `src/`).  Per the
spec, "description defaults to `\"\"` when omitted"; display name and
encoding are stored as given. -/
def create_summary_metadata (display_name : String) (descr : Option String)
    (encoding : Encoding) : SummaryMetadata :=
  { display_name := display_name
    descriptionField := descr.getD ""
    encoding := encoding }

/-- The summary value produced by either builder: a tag
(`'%s/audio_summary' % name`), the metadata block, and the `[k, 2]` tensor
of `(encoded_audio, label)` rows. -/
structure Summary (β : Type) where
  tag : String
  summary_metadata : SummaryMetadata
  rows : List (β × String)
deriving DecidableEq

deriving instance DecidableEq for Except

/-- Immediate-mode builder `pb(name, audio, sample_rate, labels,
max_outputs, encoding, display_name, description)`.

Mirrors the source line by line: `np.array(audio)` then the rank-3 check
raising `ValueError('Shape %r must have rank 3' % (audio.shape,))`;
`encoding = 'wav'` when `None`, anything other than `'wav'` raising
`ValueError('Unknown encoding: %r')`; `limited_audio = audio[:max_outputs]`;
labels `[b''] * len(limited_audio)` when `None`, else the byte-encoded
`labels[:max_outputs]`; `encoded_audio = [encoder(a) for a in
limited_audio]`; `np.array([encoded_audio, limited_labels]).transpose()`
pairing entry `i` with entry `i`; `display_name = name` when `None`; the
metadata from `create_summary_metadata`; and the summary value tagged
`'%s/audio_summary' % name`.  The second component of the result is the
list of waveforms passed to the encoder (empty on the error paths, which
raise before the encoding statement). -/
def pb {α β : Type} (encoder : Int → Tensor α → β) (name : String)
    (audio : Tensor α) (sample_rate : Int) (labels : Option (List String))
    (max_outputs : Int) (encoding : Option String)
    (display_name : Option String) (descr : Option String) :
    Except BuildError (Summary β) × List (Tensor α) :=
  if audio.ndim ≠ 3 then
    (Except.error (BuildError.shapeError audio.shape), [])
  else
    let encoding := encoding.getD "wav"
    if encoding = "wav" then
      let limited_audio := pySlice max_outputs audio.subArrays
      let limited_labels :=
        match labels with
        | none => List.replicate limited_audio.length ""
        | some ls => pySlice max_outputs ls
      let encoded_audio := limited_audio.map (encoder sample_rate)
      let content := encoded_audio.zip limited_labels
      let display_name := display_name.getD name
      let summary_metadata :=
        create_summary_metadata display_name descr Encoding.WAV
      (Except.ok
        { tag := name ++ "/audio_summary"
          summary_metadata := summary_metadata
          rows := content }, limited_audio)
    else
      (Except.error (BuildError.unknownEncoding encoding), [])

/-- Deferred-mode builder `op(name, audio, sample_rate, labels,
max_outputs, encoding, display_name, description, collections)`.

At graph construction time the source resolves `display_name` to `name`
and `encoding` to `'wav'` when `None`, and raises
`ValueError('Unknown encoding: %r')` for any other encoding — this happens
while building the graph, before any node runs.  Everything else is wrapped
in graph nodes evaluated later: `tf.assert_rank(audio, 3)` (a control
dependency guarding the rest, so a wrong rank fails the evaluation before
any encoding), `audio[:max_outputs]`, the `tf.map_fn(encoder, ...)`
encoding node, the label tile/slice, `tf.transpose(tf.stack(...))`, and the
tensor summary tagged `'%s/audio_summary' % name` (the
`tf.name_scope(name)` prefix on `'audio_summary'`).  The outer `Except` is
graph-construction; the returned thunk is the evaluation, again paired with
the list of waveforms passed to the encoder. -/
def op {α β : Type} (encoder : Int → Tensor α → β) (name : String)
    (audio : Tensor α) (sample_rate : Int) (labels : Option (List String))
    (max_outputs : Int) (encoding : Option String)
    (display_name : Option String) (descr : Option String) :
    Except BuildError
      (Unit → Except BuildError (Summary β) × List (Tensor α)) :=
  let display_name := display_name.getD name
  let encoding := encoding.getD "wav"
  if encoding = "wav" then
    Except.ok (fun _ =>
      if audio.ndim ≠ 3 then
        (Except.error (BuildError.shapeError audio.shape), [])
      else
        let limited_audio := pySlice max_outputs audio.subArrays
        let encoded_audio := limited_audio.map (encoder sample_rate)
        let limited_labels :=
          match labels with
          | none => List.replicate limited_audio.length ""
          | some ls => pySlice max_outputs ls
        let tensor := encoded_audio.zip limited_labels
        let summary_metadata :=
          create_summary_metadata display_name descr Encoding.WAV
        (Except.ok
          { tag := name ++ "/audio_summary"
            summary_metadata := summary_metadata
            rows := tensor }, limited_audio))
  else
    Except.error (BuildError.unknownEncoding encoding)

/-- A concrete injective encoder for examples and witnesses: pairs the
sample rate with the flattened waveform. -/
def flatEncoder (rate : Int) (t : Tensor Int) : Int × List Int :=
  (rate, t.flatten)

/-- A concrete rank-3 batch with `K = 2` clips of 2 frames and 1 channel. -/
def audio2 : Tensor Int :=
  Tensor.arr
    [Tensor.arr [Tensor.arr [Tensor.scalar 1], Tensor.arr [Tensor.scalar 2]],
     Tensor.arr [Tensor.arr [Tensor.scalar 3], Tensor.arr [Tensor.scalar 4]]]

/-- A concrete rank-3 batch with `K = 5` clips of 1 frame and 1 channel. -/
def audio5 : Tensor Int :=
  Tensor.arr
    [Tensor.arr [Tensor.arr [Tensor.scalar 10]],
     Tensor.arr [Tensor.arr [Tensor.scalar 11]],
     Tensor.arr [Tensor.arr [Tensor.scalar 12]],
     Tensor.arr [Tensor.arr [Tensor.scalar 13]],
     Tensor.arr [Tensor.arr [Tensor.scalar 14]]]

/-- A concrete rank-2 array of shape `[2, 3]` (missing the channel axis). -/
def audioRank2 : Tensor Int :=
  Tensor.arr
    [Tensor.arr [Tensor.scalar 1, Tensor.scalar 2, Tensor.scalar 3],
     Tensor.arr [Tensor.scalar 4, Tensor.scalar 5, Tensor.scalar 6]]

/-- `pySlice` is always a `take`, of `n` elements when `n ≥ 0` and of
`length - |n|` elements when `n < 0`. -/
theorem pySlice_eq_take {α : Type} (n : Int) (l : List α) :
    pySlice n l = l.take (if 0 ≤ n then n.toNat else l.length - (-n).toNat) := by
  by_cases h : 0 ≤ n <;> simp [pySlice, h]

/-- Shared unfolding lemma: on rank-3 input with a supported encoding, `pb`
succeeds and its result is the assembled summary together with the list
of encoded waveforms. -/
theorem pb_spec {α β : Type} (encoder : Int → Tensor α → β) (name : String)
    (audio : Tensor α) (sample_rate : Int) (labels : Option (List String))
    (max_outputs : Int) (encoding display_name descr : Option String)
    (h3 : audio.ndim = 3) (henc : encoding = none ∨ encoding = some "wav") :
    pb encoder name audio sample_rate labels max_outputs encoding
        display_name descr =
      (Except.ok
        { tag := name ++ "/audio_summary"
          summary_metadata :=
            create_summary_metadata (display_name.getD name) descr Encoding.WAV
          rows :=
            ((pySlice max_outputs audio.subArrays).map (encoder sample_rate)).zip
              (match labels with
               | none =>
                   List.replicate (pySlice max_outputs audio.subArrays).length ""
               | some ls => pySlice max_outputs ls) },
       pySlice max_outputs audio.subArrays) := by
  rcases henc with h | h <;> subst h <;> simp [pb, h3]

/-- Shared unfolding lemma: on a supported encoding, graph construction in
`op` succeeds, and the deferred computation it returns is extensionally the
immediate-mode `pb` on the same arguments. -/
theorem op_spec {α β : Type} (encoder : Int → Tensor α → β) (name : String)
    (audio : Tensor α) (sample_rate : Int) (labels : Option (List String))
    (max_outputs : Int) (encoding display_name descr : Option String)
    (henc : encoding = none ∨ encoding = some "wav") :
    op encoder name audio sample_rate labels max_outputs encoding
        display_name descr =
      Except.ok (fun _ =>
        pb encoder name audio sample_rate labels max_outputs encoding
          display_name descr) := by
  rcases henc with h | h <;> subst h <;>
    simp only [op, Option.getD_some, Option.getD_none, reduceIte] <;>
    exact congrArg Except.ok (funext (fun u => by
      by_cases h3 : audio.ndim = 3 <;> simp [pb, h3]))

/-- The first components of a zip are the first list truncated to the
second's length. -/
theorem map_fst_zip_eq_take {α β : Type} (l₁ : List α) (l₂ : List β) :
    (l₁.zip l₂).map Prod.fst = l₁.take l₂.length := by
  induction l₁ generalizing l₂ with
  | nil => simp
  | cons a l ih => cases l₂ <;> simp [ih]

/-- The second components of a zip are the second list truncated to the
first's length. -/
theorem map_snd_zip_eq_take {α β : Type} (l₁ : List α) (l₂ : List β) :
    (l₁.zip l₂).map Prod.snd = l₂.take l₁.length := by
  induction l₁ generalizing l₂ with
  | nil => simp
  | cons a l ih => cases l₂ <;> simp [ih]

/-- C1: for every valid rank-3 audio batch with `K` clips, the record
produced by `pb` (immediate mode) has exactly `min(K, max_outputs)` rows,
for every positive integer `max_outputs`. -/
theorem pb_rows_length_min {α β : Type} (encoder : Int → Tensor α → β)
    (name : String) (audio : Tensor α) (sample_rate : Int)
    (labels : Option (List String)) (max_outputs : Int)
    (encoding display_name descr : Option String)
    (h3 : audio.ndim = 3) (hpos : 0 < max_outputs)
    (henc : encoding = none ∨ encoding = some "wav")
    (hlab : labels = none ∨
      ∃ ls, labels = some ls ∧ audio.subArrays.length ≤ ls.length) :
    ∃ s : Summary β,
      (pb encoder name audio sample_rate labels max_outputs encoding
          display_name descr).1 = Except.ok s ∧
      s.rows.length = min audio.subArrays.length max_outputs.toNat := by
  rw [pb_spec encoder name audio sample_rate labels max_outputs encoding
      display_name descr h3 henc]
  refine ⟨_, rfl, ?_⟩
  have h0 : (0 : Int) ≤ max_outputs := le_of_lt hpos
  rcases hlab with h | ⟨ls, h, hlen⟩ <;> subst h <;>
    simp [pySlice_eq_take, h0, List.length_zip] <;> omega

/-- C1 witness: `K = 5` clips, `max_outputs = 3`, three rows. -/
theorem pb_rows_length_min_witness :
    audio5.ndim = 3 ∧ (0 : Int) < 3 ∧
    ∃ s : Summary (Int × List Int),
      (pb flatEncoder "tag" audio5 44100 none 3 none none none).1 =
        Except.ok s ∧
      s.rows.length = min audio5.subArrays.length (Int.toNat 3) :=
  ⟨by decide, by decide,
    pb_rows_length_min flatEncoder "tag" audio5 44100 none 3 none none none
      (by decide) (by decide) (Or.inl rfl) (Or.inl rfl)⟩

/-- C2: for every valid rank-3 batch, `pb`'s output rows preserve input
order — the encoded column is exactly `encoder` mapped over the first
`max_outputs` clips in input order, so row `i` holds the encoding of
waveform `i` — and the list of waveforms passed to the encoder is exactly
the first `max_outputs` clips: clips at index `≥ max_outputs` are never
encoded. -/
theorem pb_rows_encode_order {α β : Type} (encoder : Int → Tensor α → β)
    (name : String) (audio : Tensor α) (sample_rate : Int)
    (labels : Option (List String)) (max_outputs : Int)
    (encoding display_name descr : Option String)
    (h3 : audio.ndim = 3) (hpos : 0 < max_outputs)
    (henc : encoding = none ∨ encoding = some "wav")
    (hlab : labels = none ∨
      ∃ ls, labels = some ls ∧ audio.subArrays.length ≤ ls.length) :
    ∃ s : Summary β,
      (pb encoder name audio sample_rate labels max_outputs encoding
          display_name descr).1 = Except.ok s ∧
      s.rows.map Prod.fst =
        (audio.subArrays.take max_outputs.toNat).map (encoder sample_rate) ∧
      (pb encoder name audio sample_rate labels max_outputs encoding
          display_name descr).2 = audio.subArrays.take max_outputs.toNat := by
  rw [pb_spec encoder name audio sample_rate labels max_outputs encoding
      display_name descr h3 henc]
  have h0 : (0 : Int) ≤ max_outputs := le_of_lt hpos
  refine ⟨_, rfl, ?_, by simp [pySlice_eq_take, h0]⟩
  rcases hlab with h | ⟨ls, h, hlen⟩ <;> subst h
  · simp [map_fst_zip_eq_take, pySlice_eq_take, h0, List.take_take]
  · simp only [pySlice_eq_take, h0, if_true, map_fst_zip_eq_take]
    rw [List.take_of_length_le]
    simp only [List.length_map, List.length_take]
    omega

/-- C2 witness: `K = 5`, `max_outputs = 3`: rows 0,1,2 in order, clips 3
and 4 never handed to the encoder. -/
theorem pb_rows_encode_order_witness :
    audio5.ndim = 3 ∧ (0 : Int) < 3 ∧
    ∃ s : Summary (Int × List Int),
      (pb flatEncoder "tag" audio5 44100 none 3 none none none).1 =
        Except.ok s ∧
      s.rows.map Prod.fst =
        (audio5.subArrays.take (Int.toNat 3)).map (flatEncoder 44100) ∧
      (pb flatEncoder "tag" audio5 44100 none 3 none none none).2 =
        audio5.subArrays.take (Int.toNat 3) :=
  ⟨by decide, by decide,
    pb_rows_encode_order flatEncoder "tag" audio5 44100 none 3 none none none
      (by decide) (by decide) (Or.inl rfl) (Or.inl rfl)⟩

/-- C3: for every encoding other than `None` and `"wav"`, both `pb` and
`op` fail with `Unknown encoding` naming the requested value, `pb` having
made no encoder call (its encoder-argument trace is empty, and `op` fails
while constructing the graph, before any deferred computation exists); and
an omitted (`None`) encoding behaves exactly as `"wav"` in both. -/
theorem build_unknown_encoding {α β : Type} (encoder : Int → Tensor α → β)
    (name : String) (audio : Tensor α) (sample_rate : Int)
    (labels : Option (List String)) (max_outputs : Int)
    (display_name descr : Option String) (e : String)
    (h3 : audio.ndim = 3) (hne : e ≠ "wav") :
    (pb encoder name audio sample_rate labels max_outputs (some e)
        display_name descr =
      (Except.error (BuildError.unknownEncoding e), []) ∧
     op encoder name audio sample_rate labels max_outputs (some e)
        display_name descr =
      Except.error (BuildError.unknownEncoding e)) ∧
    (pb encoder name audio sample_rate labels max_outputs none
        display_name descr =
      pb encoder name audio sample_rate labels max_outputs (some "wav")
        display_name descr ∧
     op encoder name audio sample_rate labels max_outputs none
        display_name descr =
      op encoder name audio sample_rate labels max_outputs (some "wav")
        display_name descr) :=
  ⟨⟨by simp [pb, h3, hne], by simp [op, hne]⟩, rfl, rfl⟩

/-- C3 witness: encoding `"mp3"` on a valid batch. -/
theorem build_unknown_encoding_witness :
    audio5.ndim = 3 ∧ "mp3" ≠ "wav" ∧
    (pb flatEncoder "tag" audio5 44100 none 3 (some "mp3") none none =
      (Except.error (BuildError.unknownEncoding "mp3"), []) ∧
     op flatEncoder "tag" audio5 44100 none 3 (some "mp3") none none =
      Except.error (BuildError.unknownEncoding "mp3")) :=
  ⟨by decide, by decide,
    (build_unknown_encoding flatEncoder "tag" audio5 44100 none 3 none none
      "mp3" (by decide) (by decide)).1⟩

/-- C4: for every audio input whose rank is not 3, `pb` fails with the
shape error carrying the exact actual shape, producing no record and
calling the encoder on nothing. -/
theorem pb_rank_check {α β : Type} (encoder : Int → Tensor α → β)
    (name : String) (audio : Tensor α) (sample_rate : Int)
    (labels : Option (List String)) (max_outputs : Int)
    (encoding display_name descr : Option String)
    (h3 : audio.ndim ≠ 3) :
    pb encoder name audio sample_rate labels max_outputs encoding
        display_name descr =
      (Except.error (BuildError.shapeError audio.shape), []) := by
  simp [pb, h3]

/-- C4 witness: a rank-2 array of shape `[2, 3]`. -/
theorem pb_rank_check_witness :
    audioRank2.ndim ≠ 3 ∧
    pb flatEncoder "tag" audioRank2 44100 none 3 none none none =
      (Except.error (BuildError.shapeError audioRank2.shape), []) :=
  ⟨by decide,
    pb_rank_check flatEncoder "tag" audioRank2 44100 none 3 none none none
      (by decide)⟩

/-- C5: for every valid batch and every row: when a label sequence of
length at least `min(K, max_outputs)` is provided, the label column is the
corresponding prefix of `labels` (row `i`'s label is `labels[i]`); when no
labels are provided, every row's label is the empty string. -/
theorem pb_row_labels {α β : Type} (encoder : Int → Tensor α → β)
    (name : String) (audio : Tensor α) (sample_rate : Int)
    (labels : Option (List String)) (max_outputs : Int)
    (encoding display_name descr : Option String)
    (h3 : audio.ndim = 3) (h0 : 0 ≤ max_outputs)
    (henc : encoding = none ∨ encoding = some "wav") :
    ∃ s : Summary β,
      (pb encoder name audio sample_rate labels max_outputs encoding
          display_name descr).1 = Except.ok s ∧
      (labels = none →
        s.rows.map Prod.snd = List.replicate s.rows.length "") ∧
      (∀ ls, labels = some ls →
        min audio.subArrays.length max_outputs.toNat ≤ ls.length →
        s.rows.map Prod.snd = ls.take s.rows.length) := by
  rw [pb_spec encoder name audio sample_rate labels max_outputs encoding
      display_name descr h3 henc]
  refine ⟨_, rfl, ?_, ?_⟩
  · intro h
    subst h
    simp [map_snd_zip_eq_take, List.take_replicate, pySlice_eq_take, h0]
  · intro ls h hlen
    subst h
    simp only [pySlice_eq_take, h0, if_true, map_snd_zip_eq_take,
      List.take_take, List.length_map, List.length_take, List.length_zip]
    congr 1
    omega

/-- C5 witness: `K = 2` clips with labels `["a", "b"]` and
`max_outputs = 3`. -/
theorem pb_row_labels_witness :
    audio2.ndim = 3 ∧ (0 : Int) ≤ 3 ∧
    ∃ s : Summary (Int × List Int),
      (pb flatEncoder "tag" audio2 44100 (some ["a", "b"]) 3 none none
          none).1 = Except.ok s ∧
      (some ["a", "b"] = none →
        s.rows.map Prod.snd = List.replicate s.rows.length "") ∧
      (∀ ls, some ["a", "b"] = some ls →
        min audio2.subArrays.length (Int.toNat 3) ≤ ls.length →
        s.rows.map Prod.snd = ls.take s.rows.length) :=
  ⟨by decide, by decide,
    pb_row_labels flatEncoder "tag" audio2 44100 (some ["a", "b"]) 3 none
      none none (by decide) (by decide) (Or.inl rfl)⟩

/-- C6: for identical inputs with a supported encoding, `op` succeeds at
construction and the deferred computation it returns, when evaluated,
produces exactly what `pb` produces on the same inputs — same rows, same
labels, same metadata, same encoder calls — so the two modes differ only in
when validation and encoding happen. -/
theorem op_refines_pb {α β : Type} (encoder : Int → Tensor α → β)
    (name : String) (audio : Tensor α) (sample_rate : Int)
    (labels : Option (List String)) (max_outputs : Int)
    (encoding display_name descr : Option String)
    (henc : encoding = none ∨ encoding = some "wav") :
    ∃ f, op encoder name audio sample_rate labels max_outputs encoding
        display_name descr = Except.ok f ∧
      f () = pb encoder name audio sample_rate labels max_outputs encoding
        display_name descr :=
  ⟨_, op_spec encoder name audio sample_rate labels max_outputs encoding
      display_name descr henc, rfl⟩

/-- C6 witness: a concrete batch evaluated through both modes. -/
theorem op_refines_pb_witness :
    ((none : Option String) = none ∨ (none : Option String) = some "wav") ∧
    ∃ f, op flatEncoder "tag" audio5 44100 none 3 none none none =
        Except.ok f ∧
      f () = pb flatEncoder "tag" audio5 44100 none 3 none none none :=
  ⟨Or.inl rfl,
    op_refines_pb flatEncoder "tag" audio5 44100 none 3 none none none
      (Or.inl rfl)⟩

/-- C7 counterexample: with encoding `"mp3"`, `op` fails while the graph is
still being constructed — no deferred computation is ever returned — so
the unsupported-encoding rejection does not surface at evaluation time of
the deferred computation, contradicting the claim. -/
theorem op_encoding_error_at_construction :
    op flatEncoder "tag" audio5 44100 none 3 (some "mp3") none none =
      Except.error (BuildError.unknownEncoding "mp3") := rfl

/-- C7 (amended): in deferred mode (`op`), the rank-3 shape check surfaces
at evaluation time of the deferred computation — construction succeeds even
on wrong-rank input, and forcing the computation yields the shape error —
while the unsupported-encoding rejection surfaces at graph-construction
time. -/
theorem op_error_timing {α β : Type} (encoder : Int → Tensor α → β)
    (name : String) (audio : Tensor α) (sample_rate : Int)
    (labels : Option (List String)) (max_outputs : Int)
    (encoding display_name descr : Option String) :
    (∀ e : String, e ≠ "wav" →
      op encoder name audio sample_rate labels max_outputs (some e)
          display_name descr =
        Except.error (BuildError.unknownEncoding e)) ∧
    ((encoding = none ∨ encoding = some "wav") →
      ∃ f, op encoder name audio sample_rate labels max_outputs encoding
          display_name descr = Except.ok f ∧
        (audio.ndim ≠ 3 →
          f () = (Except.error (BuildError.shapeError audio.shape), []))) := by
  constructor
  · intro e he
    simp [op, he]
  · intro henc
    refine ⟨_, op_spec encoder name audio sample_rate labels max_outputs
      encoding display_name descr henc, ?_⟩
    intro h3
    simp [pb, h3]

/-- C7 witness: rank-2 input constructs fine and fails only when the
deferred computation is forced. -/
theorem op_error_timing_witness :
    ("mp3" ≠ "wav" →
      op flatEncoder "tag" audioRank2 44100 none 3 (some "mp3") none none =
        Except.error (BuildError.unknownEncoding "mp3")) ∧
    (((none : Option String) = none ∨ (none : Option String) = some "wav") ∧
      ∃ f, op flatEncoder "tag" audioRank2 44100 none 3 none none none =
          Except.ok f ∧
        (audioRank2.ndim ≠ 3 →
          f () =
            (Except.error (BuildError.shapeError audioRank2.shape), []))) :=
  ⟨fun he =>
    (op_error_timing flatEncoder "tag" audioRank2 44100 none 3 none none
        none).1 "mp3" he,
   Or.inl rfl,
   (op_error_timing flatEncoder "tag" audioRank2 44100 none 3 none none
      none).2 (Or.inl rfl)⟩

/-- C8: when `display_name` is omitted the metadata's display name equals
`name`, and when `description` is omitted the metadata's description is the
empty string — in both `pb` and (once evaluated) `op`. -/
theorem build_default_metadata {α β : Type} (encoder : Int → Tensor α → β)
    (name : String) (audio : Tensor α) (sample_rate : Int)
    (labels : Option (List String)) (max_outputs : Int)
    (encoding display_name descr : Option String)
    (h3 : audio.ndim = 3)
    (henc : encoding = none ∨ encoding = some "wav") :
    (∃ s : Summary β,
      (pb encoder name audio sample_rate labels max_outputs encoding none
          descr).1 = Except.ok s ∧
      s.summary_metadata.display_name = name) ∧
    (∃ s : Summary β,
      (pb encoder name audio sample_rate labels max_outputs encoding
          display_name none).1 = Except.ok s ∧
      s.summary_metadata.descriptionField = "") ∧
    (∃ f, op encoder name audio sample_rate labels max_outputs encoding none
        descr = Except.ok f ∧
      ∃ s : Summary β, (f ()).1 = Except.ok s ∧
        s.summary_metadata.display_name = name) ∧
    (∃ f, op encoder name audio sample_rate labels max_outputs encoding
        display_name none = Except.ok f ∧
      ∃ s : Summary β, (f ()).1 = Except.ok s ∧
        s.summary_metadata.descriptionField = "") := by
  refine ⟨?_, ?_, ?_, ?_⟩
  · rw [pb_spec encoder name audio sample_rate labels max_outputs encoding
      none descr h3 henc]
    exact ⟨_, rfl, rfl⟩
  · rw [pb_spec encoder name audio sample_rate labels max_outputs encoding
      display_name none h3 henc]
    exact ⟨_, rfl, rfl⟩
  · refine ⟨_, op_spec encoder name audio sample_rate labels max_outputs
      encoding none descr henc, ?_⟩
    rw [pb_spec encoder name audio sample_rate labels max_outputs encoding
      none descr h3 henc]
    exact ⟨_, rfl, rfl⟩
  · refine ⟨_, op_spec encoder name audio sample_rate labels max_outputs
      encoding display_name none henc, ?_⟩
    rw [pb_spec encoder name audio sample_rate labels max_outputs encoding
      display_name none h3 henc]
    exact ⟨_, rfl, rfl⟩

/-- C8 witness: concrete batch, both options omitted. -/
theorem build_default_metadata_witness :
    audio2.ndim = 3 ∧
    ∃ s : Summary (Int × List Int),
      (pb flatEncoder "tag" audio2 44100 none 3 none none none).1 =
        Except.ok s ∧
      s.summary_metadata.display_name = "tag" :=
  ⟨by decide,
    (build_default_metadata flatEncoder "tag" audio2 44100 none 3 none none
      none (by decide) (Or.inl rfl)).1⟩

/-- C9: `pb` is deterministic — two calls with identical inputs and an
encoder collaborator with identical behaviour yield identical summaries
(metadata, labels, encoded bytes) and identical encoder-call traces. -/
theorem pb_deterministic {α β : Type} (e₁ e₂ : Int → Tensor α → β)
    (name : String) (audio : Tensor α) (sample_rate : Int)
    (labels : Option (List String)) (max_outputs : Int)
    (encoding display_name descr : Option String)
    (hdet : ∀ r t, e₁ r t = e₂ r t) :
    pb e₁ name audio sample_rate labels max_outputs encoding display_name
        descr =
      pb e₂ name audio sample_rate labels max_outputs encoding display_name
        descr := by
  have he : e₁ = e₂ := funext fun r => funext fun t => hdet r t
  rw [he]

/-- C9 witness: two syntactically different but extensionally equal
encoders. -/
theorem pb_deterministic_witness :
    (∀ (r : Int) (t : Tensor Int),
      flatEncoder r t = (r, t.flatten ++ [])) ∧
    pb flatEncoder "tag" audio2 44100 none 3 none none none =
      pb (fun r t => (r, t.flatten ++ [])) "tag" audio2 44100 none 3 none
        none none :=
  ⟨fun r t => by simp [flatEncoder],
    pb_deterministic flatEncoder (fun r t => (r, t.flatten ++ [])) "tag"
      audio2 44100 none 3 none none none
      (fun r t => by simp [flatEncoder])⟩

/-- C10: `pb` never validates `max_outputs`: with `max_outputs = 0` it
succeeds with zero rows, and with negative `max_outputs` the clips handed
to the encoder follow Python slice semantics — all but the last
`|max_outputs|` clips — rather than `min(K, max_outputs)`. -/
theorem pb_max_outputs_unchecked {α β : Type} (encoder : Int → Tensor α → β)
    (name : String) (audio : Tensor α) (sample_rate : Int)
    (labels : Option (List String))
    (encoding display_name descr : Option String)
    (h3 : audio.ndim = 3)
    (henc : encoding = none ∨ encoding = some "wav") :
    (∃ s : Summary β,
      (pb encoder name audio sample_rate labels 0 encoding display_name
          descr).1 = Except.ok s ∧
      s.rows = []) ∧
    (∀ m : Int, m < 0 →
      (pb encoder name audio sample_rate labels m encoding display_name
          descr).2 =
        audio.subArrays.take (audio.subArrays.length - (-m).toNat)) := by
  constructor
  · rw [pb_spec encoder name audio sample_rate labels 0 encoding
      display_name descr h3 henc]
    refine ⟨_, rfl, ?_⟩
    rcases labels with _ | ls <;> simp [pySlice_eq_take]
  · intro m hm
    have h' : ¬ (0 : Int) ≤ m := not_le.mpr hm
    rw [pb_spec encoder name audio sample_rate labels m encoding
      display_name descr h3 henc]
    simp [pySlice_eq_take, h']

/-- C10 witness: `max_outputs = 0` gives zero rows, and `max_outputs = -3`
with `K = 5` encodes exactly the first two clips. -/
theorem pb_max_outputs_unchecked_witness :
    audio5.ndim = 3 ∧
    (∃ s : Summary (Int × List Int),
      (pb flatEncoder "tag" audio5 44100 none 0 none none none).1 =
        Except.ok s ∧
      s.rows = []) ∧
    ((-3 : Int) < 0 →
      (pb flatEncoder "tag" audio5 44100 none (-3) none none none).2 =
        audio5.subArrays.take (audio5.subArrays.length - (Int.toNat 3))) :=
  ⟨by decide,
    (pb_max_outputs_unchecked flatEncoder "tag" audio5 44100 none none none
      none (by decide) (Or.inl rfl)).1,
    fun hm =>
      (pb_max_outputs_unchecked flatEncoder "tag" audio5 44100 none none
        none none (by decide) (Or.inl rfl)).2 (-3) hm⟩

end AudioSummary
